import Mathlib

/-!
Verification development for the GAD demo backend
(`gad-demo/backend/app/mock_data.py` together with the data model of
`gad-demo/backend/app/models.py`).

The Python module is a deterministic mock-data generator: it derives a
five-generation "GAD run" from the global `random` generator (re-seeded with
42 at the start of `create_sample_run`) and from the wall clock
(`datetime.now()` inside `generate_reviewer_comments` and
`generate_dna_bundle`).

Embedding conventions:
* Python floats become `ℚ`; non-negative integers become `ℕ`.
* The ambient `random` module state is threaded explicitly as a `PyRng`
  value; the standard-library generator itself is modelled as a
  deterministic state machine (an LCG with the well-known MMIX constants).
  Which concrete stream it produces is irrelevant to every claim below; what
  matters is that it is a pure function of the seed.
* `datetime.now().isoformat()` is modelled by a `now : ℕ` clock reading
  passed to each function that consults the clock; `isoformat` is injective
  on instants, so distinct readings give distinct stored timestamps.
* CPython `list.sort` (a stable sort) is modelled by `stableSort`, an
  insertion sort with the same semantics: equal keys keep their original
  relative order.
-/

namespace GadDemo

/-- Model of the state of the Python `random` module generator: a
deterministic state machine, so its stream is a pure function of the seed. -/
structure PyRng where
  st : Nat
deriving DecidableEq, Repr

/-- Model of `random.seed(n)`. -/
def pySeed (n : Nat) : PyRng := ⟨n⟩

/-- One step of the modelled generator (LCG, MMIX constants, 64-bit). -/
def rngStep (s : Nat) : Nat :=
  (6364136223846793005 * s + 1442695040888963407) % 18446744073709551616

/-- Model of `random.random()`: a rational in `[0, 1)`.  Marked
irreducible so that unification never tries to reduce the generator's
arithmetic on open states; proofs that evaluate concrete streams unseal it
locally. -/
@[irreducible] def pyRandom (r : PyRng) : ℚ × PyRng :=
  let s := rngStep r.st
  (((s / 4294967296 : Nat) : ℚ) / 4294967296, ⟨s⟩)

/-- Model of `random.randint(a, b)`: an integer in `[a, b]` (both ends
included).  Irreducible for the same reason as `pyRandom`. -/
@[irreducible] def pyRandInt (a b : Nat) (r : PyRng) : Nat × PyRng :=
  let s := rngStep r.st
  (a + (s / 4294967296) % (b - a + 1), ⟨s⟩)

/-- Model of `random.sample(population, k)`: `k` distinct positions drawn
without replacement. -/
def pySample : Nat → List α → PyRng → List α × PyRng
  | 0, _, r => ([], r)
  | _ + 1, [], r => ([], r)
  | k + 1, l, r =>
    let ir := pyRandInt 0 (l.length - 1) r
    match l.drop ir.1 with
    | [] => ([], ir.2)
    | x :: xs =>
      let rest := pySample k (l.take ir.1 ++ xs) ir.2
      (x :: rest.1, rest.2)

/-- Aggregated metrics for a candidate solution (`models.py`, `Metrics`). -/
structure Metrics where
  test_pass_rate : ℚ
  coverage : ℚ
  performance_score : ℚ
  security_score : ℚ
  ux_score : ℚ
  style_score : ℚ
  license_compliance : Bool
  vulnerability_count : Nat
deriving DecidableEq, Repr

/-- Result of a hard gate check (`models.py`, `GateResult`). -/
structure GateResult where
  gate_name : String
  passed : Bool
  message : String
  threshold : Option ℚ
  actual : Option ℚ
deriving DecidableEq, Repr

/-- Comment from a reviewer agent (`models.py`, `ReviewerComment`); the
`timestamp` field stores the modelled clock reading. -/
structure ReviewerComment where
  reviewer_id : String
  reviewer_type : String
  timestamp : Nat
  severity : String
  category : String
  message : String
  line_numbers : Option (List Nat)
deriving DecidableEq, Repr

/-- Genetic instructions for code generation (`models.py`, `PromptDNA`);
each mutation dict is modelled as an association list. -/
structure PromptDNA where
  id : String
  system_prompt : String
  task_description : String
  constraints : List String
  examples : List String
  temperature : ℚ
  top_p : ℚ
  feedback_history : List String
  generation : Nat
  parent_ids : List String
  mutations : List (List (String × String))
  trust_region_similarity : Option ℚ
deriving DecidableEq, Repr

/-- A candidate solution in a generation (`models.py`, `Candidate`); the
`weighted_scores` dict is modelled as an association list in insertion
order. -/
structure Candidate where
  id : String
  generation : Nat
  parent_ids : List String
  prompt_dna_id : String
  prompt_dna_summary : String
  metrics : Metrics
  effective_score : ℚ
  weighted_scores : List (String × ℚ)
  gates_passed : Bool
  gate_results : List GateResult
  is_pareto_front : Bool
  selected_for_breeding : Bool
  survival_reason : Option String
  branch : String
  commit_id : String
  generator_agent_id : String
  reviewer_comments : List ReviewerComment
deriving DecidableEq, Repr

/-- Profile of a generator or reviewer agent (`models.py`, `AgentProfile`). -/
structure AgentProfile where
  id : String
  name : String
  type : String
  specialization : String
  reliability_score : Option ℚ
  generations_participated : Nat
  successful_candidates : Option Nat
deriving DecidableEq, Repr

/-- Upper Confidence Bound statistics snapshot (`models.py`, `UCBStats`). -/
structure UCBStats where
  agent_id : String
  mean_reward : ℚ
  confidence_interval : ℚ
  exploration_bonus : ℚ
  total_score : ℚ
  times_selected : Nat
deriving DecidableEq, Repr

/-- Point recorded in a generation's `pareto_front` list (`models.py`,
`ParetoPoint`). -/
structure ParetoPoint where
  candidate_id : String
  objective1 : ℚ
  objective2 : ℚ
  label : String
deriving DecidableEq, Repr

/-- A complete generation in the GAD run (`models.py`, `Generation`). -/
structure Generation where
  number : Nat
  candidates : List Candidate
  pareto_front : List ParetoPoint
  ucb_allocations : List UCBStats
  survivors : List String
  breeding_pairs : List (String × String)
  summary : String
deriving DecidableEq, Repr

/-- Code layer of a DNA bundle (`models.py`, `CodeLayer`). -/
structure CodeLayer where
  branch : String
  commit_id : String
  diff_summary : String
  files_changed : Nat
  lines_added : Nat
  lines_removed : Nat
  diff_url : Option String
deriving DecidableEq, Repr

/-- Evaluator layer of a DNA bundle (`models.py`, `EvaluatorLayer`); the
reliabilities dict is modelled as an association list. -/
structure EvaluatorLayer where
  reviewer_reliabilities : List (String × ℚ)
  anti_cheat_seed : String
  ucb_stats : List UCBStats
  policy_version : String
  merkle_root : String
deriving DecidableEq, Repr

/-- Complete DNA bundle (`models.py`, `DNABundle`); the `timestamp` field
stores the modelled clock reading. -/
structure DNABundle where
  id : String
  candidate_id : String
  code_layer : CodeLayer
  prompt_layer : PromptDNA
  evaluator_layer : EvaluatorLayer
  provenance_hash : String
  parent_hashes : List String
  timestamp : Nat
deriving DecidableEq, Repr

/-- Node in the Repository Planning Graph (`models.py`, `RPGNode`). -/
structure RPGNode where
  id : String
  type : String
  name : String
  description : String
  status : String
deriving DecidableEq, Repr

/-- Edge in the Repository Planning Graph (`models.py`, `RPGEdge`). -/
structure RPGEdge where
  source : String
  target : String
  type : String
deriving DecidableEq, Repr

/-- Complete RPG structure (`models.py`, `RepositoryPlanningGraph`). -/
structure RepositoryPlanningGraph where
  nodes : List RPGNode
  edges : List RPGEdge
deriving DecidableEq, Repr

/-- Complete GAD run (`models.py`, `GADRun`). -/
structure GADRun where
  id : String
  name : String
  requirement : String
  total_generations : Nat
  generations : List Generation
  final_candidate_id : Option String
  rpg : RepositoryPlanningGraph
  agents : List AgentProfile
deriving DecidableEq, Repr

/-- Translation of `generate_prompt_dna` (mock_data.py lines 16-65).  For
`generation > 0` it consumes three random draws (two for the mutation list,
one for the trust-region similarity), in source order. -/
def generate_prompt_dna (generation : Nat) (candidate_id : String)
    (parent_ids : List String) (r : PyRng) : PromptDNA × PyRng :=
  let base_task := "Implement a secure REST API endpoint for user authentication with JWT tokens"
  let step : (List (List (String × String)) × List String × Option ℚ) × PyRng :=
    if 0 < generation then
      let q1 := pyRandom r
      let m1 : List (List (String × String)) :=
        if (0.5 : ℚ) < q1.1 then
          [[("type", "feedback_integration"),
            ("change", "Added explicit error handling requirements from reviewer feedback")]]
        else []
      let q2 := pyRandom q1.2
      let m2 : List (List (String × String)) :=
        if (0.7 : ℚ) < q2.1 then
          [[("type", "constraint_refinement"),
            ("change", "Tightened security constraints based on vulnerability scan")]]
        else []
      let fb := ["Gen " ++ toString (generation - 1) ++ ": Improve input validation",
                 "Gen " ++ toString (generation - 1) ++ ": Add rate limiting"]
      let q3 := pyRandom q2.2
      ((m1 ++ m2, fb, some ((0.85 : ℚ) + q3.1 * 0.1)), q3.2)
    else (([], [], none), r)
  ({ id := "prompt-dna-" ++ candidate_id,
     system_prompt := "You are an expert backend engineer specializing in secure API development.",
     task_description :=
       base_task ++ (if 0 < generation then " [Gen " ++ toString generation ++ " refinement]" else ""),
     constraints :=
       ["Must use bcrypt for password hashing",
        "JWT tokens must expire in 15 minutes",
        "Rate limit: 10 requests per minute per IP",
        "All inputs must be validated and sanitized"],
     examples :=
       ["Example: POST /auth/login with email and password",
        "Example: Return JWT token on success, 401 on failure"],
     temperature := 0.7,
     top_p := 0.9,
     feedback_history := step.1.2.1,
     generation := generation,
     parent_ids := parent_ids,
     mutations := step.1.1,
     trust_region_similarity := step.1.2.2 }, step.2)

/-- Translation of `generate_metrics` (mock_data.py lines 68-91); random
draws happen in the order of the `Metrics(...)` constructor arguments. -/
def generate_metrics (generation : Nat) (is_good : Bool) (r : PyRng) :
    Metrics × PyRng :=
  if is_good then
    let q1 := pyRandom r
    let q2 := pyRandom q1.2
    let q3 := pyRandom q2.2
    let q4 := pyRandom q3.2
    let q5 := pyRandom q4.2
    let q6 := pyRandom q5.2
    let v := pyRandInt 0 1 q6.2
    ({ test_pass_rate := 0.95 + q1.1 * 0.05,
       coverage := 0.85 + q2.1 * 0.1,
       performance_score := 85 + q3.1 * 10,
       security_score := 90 + q4.1 * 10,
       ux_score := 80 + q5.1 * 15,
       style_score := 90 + q6.1 * 10,
       license_compliance := true,
       vulnerability_count := v.1 }, v.2)
  else
    let q1 := pyRandom r
    let q2 := pyRandom q1.2
    let q3 := pyRandom q2.2
    let q4 := pyRandom q3.2
    let q5 := pyRandom q4.2
    let q6 := pyRandom q5.2
    let q7 := pyRandom q6.2
    let v := pyRandInt 2 8 q7.2
    ({ test_pass_rate := 0.6 + q1.1 * 0.2,
       coverage := 0.5 + q2.1 * 0.2,
       performance_score := 50 + q3.1 * 30,
       security_score := 40 + q4.1 * 40,
       ux_score := 50 + q5.1 * 30,
       style_score := 60 + q6.1 * 30,
       license_compliance := decide ((0.3 : ℚ) < q7.1),
       vulnerability_count := v.1 }, v.2)

/-- Translation of `generate_gate_results` (mock_data.py lines 94-128): the
four gates in their fixed order and the conjunction of their `passed`
flags. -/
def generate_gate_results (metrics : Metrics) : Bool × List GateResult :=
  let gates : List GateResult :=
    [{ gate_name := "Minimum Test Pass Rate",
       passed := decide ((0.8 : ℚ) ≤ metrics.test_pass_rate),
       message := "All critical tests must pass",
       threshold := some 0.8,
       actual := some metrics.test_pass_rate },
     { gate_name := "Security Threshold",
       passed := decide ((70 : ℚ) ≤ metrics.security_score),
       message := "Security score must meet minimum threshold",
       threshold := some 70.0,
       actual := some metrics.security_score },
     { gate_name := "Zero Critical Vulnerabilities",
       passed := decide (metrics.vulnerability_count = 0),
       message := "No critical vulnerabilities allowed",
       threshold := some 0.0,
       actual := some (metrics.vulnerability_count : ℚ) },
     { gate_name := "License Compliance",
       passed := metrics.license_compliance,
       message := "All dependencies must have compatible licenses",
       threshold := none,
       actual := none }]
  (gates.all (·.passed), gates)

/-- Translation of `generate_reviewer_comments` (mock_data.py lines
131-168); `now` is the clock reading stored in each comment timestamp. -/
def generate_reviewer_comments (now : Nat) (metrics : Metrics)
    (gates_passed : Bool) : List ReviewerComment :=
  (if gates_passed = false then
    [{ reviewer_id := "reviewer-security-001",
       reviewer_type := "security",
       timestamp := now,
       severity := "critical",
       category := "security",
       message := "SQL injection vulnerability detected in login endpoint",
       line_numbers := some [45, 46, 47] }]
   else []) ++
  (if metrics.performance_score < 80 then
    [{ reviewer_id := "reviewer-performance-001",
       reviewer_type := "performance",
       timestamp := now,
       severity := "warning",
       category := "performance",
       message := "Database query not optimized, consider adding index",
       line_numbers := some [78, 79] }]
   else []) ++
  (if 85 < metrics.ux_score then
    [{ reviewer_id := "reviewer-ux-001",
       reviewer_type := "ux",
       timestamp := now,
       severity := "info",
       category := "ux",
       message := "Error messages are clear and actionable - excellent UX",
       line_numbers := none }]
   else [])

/-- Effective-score aggregation from `generate_candidate` (mock_data.py
lines 186-205): the weighted sum over the six metric terms with the fixed
weight dict, multiplied by 0.5 when the gates failed. -/
def effective_score_of (metrics : Metrics) (gates_passed : Bool) : ℚ :=
  let s :=
    metrics.test_pass_rate * 0.25 * 100 +
    metrics.security_score * 0.25 +
    metrics.performance_score * 0.15 +
    metrics.ux_score * 0.15 +
    metrics.coverage * 0.10 * 100 +
    metrics.style_score * 0.10
  if gates_passed then s else s * 0.5

/-- The `weighted_scores` breakdown from `generate_candidate` (mock_data.py
lines 207-214), in dict insertion order. -/
def weighted_scores_of (metrics : Metrics) : List (String × ℚ) :=
  [("test_pass_rate", metrics.test_pass_rate * 0.25 * 100),
   ("security", metrics.security_score * 0.25),
   ("performance", metrics.performance_score * 0.15),
   ("ux", metrics.ux_score * 0.15),
   ("coverage", metrics.coverage * 0.10 * 100),
   ("style", metrics.style_score * 0.10)]

/-- Zero-padded rendering used for the Python format specifier `:03d`. -/
def pad3 (n : Nat) : String :=
  if n < 10 then "00" ++ toString n
  else if n < 100 then "0" ++ toString n
  else toString n

/-- Translation of `generate_candidate` (mock_data.py lines 171-243). -/
def generate_candidate (now gen_num candidate_num : Nat)
    (parent_ids : List String) (is_good is_pareto selected : Bool)
    (r : PyRng) : Candidate × PyRng :=
  let cand_id := "gen" ++ toString gen_num ++ "-cand" ++ toString candidate_num
  let mr := generate_metrics gen_num is_good r
  let metrics := mr.1
  let gg := generate_gate_results metrics
  let gates_passed := gg.1
  let comments := generate_reviewer_comments now metrics gates_passed
  let survival_reason : Option String :=
    if selected then
      some (if is_pareto then "Pareto optimal (quality vs. performance trade-off)"
            else "High effective score with all gates passed")
    else none
  let pd := generate_prompt_dna gen_num cand_id parent_ids mr.2
  let ar := pyRandInt 1 3 pd.2
  ({ id := cand_id,
     generation := gen_num,
     parent_ids := parent_ids,
     prompt_dna_id := pd.1.id,
     prompt_dna_summary := pd.1.task_description.take 100 ++ "...",
     metrics := metrics,
     effective_score := effective_score_of metrics gates_passed,
     weighted_scores := weighted_scores_of metrics,
     gates_passed := gates_passed,
     gate_results := gg.2,
     is_pareto_front := is_pareto,
     selected_for_breeding := selected,
     survival_reason := survival_reason,
     branch := "gad/gen" ++ toString gen_num ++ "/" ++ cand_id,
     commit_id := "abc" ++ toString gen_num ++ pad3 candidate_num ++ "def",
     generator_agent_id := "generator-" ++ pad3 ar.1,
     reviewer_comments := comments }, ar.2)

/-- Insertion of an element into a list: it is placed before the first entry
it compares le-true against.  Together with `stableSort` below this models
the semantics of CPython `list.sort` (a stable sort): entries with equal
keys keep their original relative order. -/
def orderedInsertB (le : α → α → Bool) (a : α) : List α → List α
  | [] => [a]
  | b :: l => if le a b then a :: b :: l else b :: orderedInsertB le a l

/-- Stable sort modelling CPython `list.sort` (see `orderedInsertB`). -/
def stableSort (le : α → α → Bool) : List α → List α
  | [] => []
  | a :: l => orderedInsertB le a (stableSort le l)

/-- The comparison used by `passing_candidates.sort(key=..., reverse=True)`
in `generate_generation`: descending effective score. -/
def score_desc_le (a b : Candidate) : Bool :=
  decide (b.effective_score ≤ a.effective_score)

/-- Survivor selection from `generate_generation` (mock_data.py lines
267-273): filter to gate-passing candidates, stable-sort them by descending
effective score, and keep the first three when at least two pass, nothing
otherwise. -/
def survivor_selection (candidates : List Candidate) : List Candidate :=
  let passing := candidates.filter (·.gates_passed)
  let sorted := stableSort score_desc_le passing
  if 2 ≤ passing.length then sorted.take 3 else []

/-- The per-survivor field update from `generate_generation` (mock_data.py
lines 274-280). -/
def update_survivor (flag : Bool) (c : Candidate) : Candidate :=
  { c with
    selected_for_breeding := true,
    is_pareto_front := flag,
    survival_reason :=
      some (if flag then "Pareto optimal" else "High effective score") }

/-- The `for survivor in survivors` update loop of `generate_generation`:
one random draw per survivor decides its `is_pareto_front` flag. -/
def update_survivors_loop : List Candidate → PyRng → List Candidate × PyRng
  | [], r => ([], r)
  | c :: cs, r =>
    let q := pyRandom r
    let c2 := update_survivor (decide ((0.5 : ℚ) < q.1)) c
    let rest := update_survivors_loop cs q.2
    (c2 :: rest.1, rest.2)

/-- In-place mutation through aliasing: the generation's candidate list
contains the very objects that were updated as survivors, so each candidate
is replaced by its updated version when one with its id exists. -/
def apply_survivor_updates (updated : List Candidate) (c : Candidate) :
    Candidate :=
  (updated.find? (fun s => s.id == c.id)).getD c

/-- The `ParetoPoint` built for a candidate in `generate_generation`
(mock_data.py lines 284-290): objective1 is the security score, objective2
the performance score. -/
def pareto_point_of (c : Candidate) : ParetoPoint :=
  { candidate_id := c.id,
    objective1 := c.metrics.security_score,
    objective2 := c.metrics.performance_score,
    label := c.id }

/-- The `pareto_front` list assembled by `generate_generation` (mock_data.py
lines 282-290): one point per candidate of the generation, in order. -/
def pareto_points_of (candidates : List Candidate) : List ParetoPoint :=
  candidates.map pareto_point_of

/-- The `ucb_allocations` snapshot list of `generate_generation`
(mock_data.py lines 292-318): three hardcoded records whose mean rewards
consume one random draw each. -/
def generate_ucb_allocations (gen_num : Nat) (r : PyRng) :
    List UCBStats × PyRng :=
  let q1 := pyRandom r
  let q2 := pyRandom q1.2
  let q3 := pyRandom q2.2
  ([{ agent_id := "generator-001", mean_reward := 0.75 + q1.1 * 0.2,
      confidence_interval := 0.05, exploration_bonus := 0.08,
      total_score := 0.88, times_selected := gen_num * 3 + 5 },
    { agent_id := "generator-002", mean_reward := 0.70 + q2.1 * 0.15,
      confidence_interval := 0.08, exploration_bonus := 0.12,
      total_score := 0.85, times_selected := gen_num * 2 + 4 },
    { agent_id := "generator-003", mean_reward := 0.65 + q3.1 * 0.15,
      confidence_interval := 0.10, exploration_bonus := 0.15,
      total_score := 0.82, times_selected := gen_num * 2 + 2 }], q3.2)

/-- The breeding-pair construction of `generate_generation` (mock_data.py
lines 320-325). -/
def breeding_pairs_of : List Candidate → List (String × String)
  | s0 :: s1 :: s2 :: _ => [(s0.id, s1.id), (s0.id, s2.id)]
  | [s0, s1] => [(s0.id, s1.id)]
  | _ => []

/-- One iteration of the per-candidate loop of `generate_generation`
(mock_data.py lines 253-265): a quality draw, a parent sample, then the
candidate itself. -/
def candidate_step (now gen_num i : Nat) (parent_candidates : List String)
    (r : PyRng) : Candidate × PyRng :=
  let gq := pyRandom r
  let is_good := decide (gq.1 < 0.3 + (gen_num : ℚ) * 0.15)
  let ps : List String × PyRng :=
    if gen_num = 0 then ([], gq.2)
    else pySample (min 2 parent_candidates.length) parent_candidates gq.2
  generate_candidate now gen_num i ps.1 is_good false false ps.2

/-- The per-candidate loop of `generate_generation` (mock_data.py lines
252-265).  The first argument counts the remaining iterations, the second
is the running candidate index. -/
def candidate_loop (now gen_num : Nat) (parent_candidates : List String) :
    Nat → Nat → PyRng → List Candidate × PyRng
  | 0, _, r => ([], r)
  | n + 1, i, r =>
    let cr := candidate_step now gen_num i parent_candidates r
    let rest := candidate_loop now gen_num parent_candidates n (i + 1) cr.2
    (cr.1 :: rest.1, rest.2)

/-- The candidate-count draw and candidate loop of `generate_generation`
(mock_data.py lines 248-265): generation 0 has 8 candidates, later
generations 6 to 8. -/
def generation_candidates (now gen_num : Nat)
    (parent_candidates : List String) (r : PyRng) :
    List Candidate × PyRng :=
  let nr : Nat × PyRng := if gen_num = 0 then (8, r) else pyRandInt 6 8 r
  candidate_loop now gen_num parent_candidates nr.1 0 nr.2

/-- Translation of `generate_generation` (mock_data.py lines 246-337). -/
def generate_generation (now gen_num : Nat) (parent_candidates : List String)
    (r : PyRng) : Generation × PyRng :=
  let cl := generation_candidates now gen_num parent_candidates r
  let candidates := cl.1
  let ur := update_survivors_loop (survivor_selection candidates) cl.2
  let survivors := ur.1
  let candidatesF := candidates.map (apply_survivor_updates survivors)
  let ucb := generate_ucb_allocations gen_num ur.2
  ({ number := gen_num,
     candidates := candidatesF,
     pareto_front := pareto_points_of candidatesF,
     ucb_allocations := ucb.1,
     survivors := survivors.map (·.id),
     breeding_pairs := breeding_pairs_of survivors,
     summary := "Generation " ++ toString gen_num ++ ": " ++
       toString candidates.length ++ " candidates, " ++
       toString survivors.length ++ " survivors" }, ucb.2)

/-- Translation of `generate_agents` (mock_data.py lines 340-406). -/
def generate_agents : List AgentProfile :=
  [{ id := "generator-001", name := "CodeCraft Pro", type := "generator",
     specialization := "Security-focused backend development",
     reliability_score := none, generations_participated := 5,
     successful_candidates := some 8 },
   { id := "generator-002", name := "SwiftCode AI", type := "generator",
     specialization := "High-performance API design",
     reliability_score := none, generations_participated := 5,
     successful_candidates := some 6 },
   { id := "generator-003", name := "CleanCode Engine", type := "generator",
     specialization := "Test-driven development",
     reliability_score := none, generations_participated := 4,
     successful_candidates := some 4 },
   { id := "reviewer-security-001", name := "SecureGuard", type := "reviewer",
     specialization := "Security & vulnerability analysis",
     reliability_score := some 0.95, generations_participated := 5,
     successful_candidates := none },
   { id := "reviewer-performance-001", name := "SpeedChecker", type := "reviewer",
     specialization := "Performance & optimization",
     reliability_score := some 0.88, generations_participated := 5,
     successful_candidates := none },
   { id := "reviewer-ux-001", name := "UXValidator", type := "reviewer",
     specialization := "User experience & API design",
     reliability_score := some 0.92, generations_participated := 5,
     successful_candidates := none },
   { id := "reviewer-quality-001", name := "QualityGate", type := "reviewer",
     specialization := "Code quality & maintainability",
     reliability_score := some 0.90, generations_participated := 5,
     successful_candidates := none }]

/-- Translation of `generate_rpg` (mock_data.py lines 409-444). -/
def generate_rpg : RepositoryPlanningGraph :=
  { nodes :=
      [{ id := "cap-auth", type := "capability", name := "User Authentication",
         description := "Complete authentication system", status := "implemented" },
       { id := "mod-api", type := "module", name := "API Module",
         description := "REST API handlers", status := "implemented" },
       { id := "mod-db", type := "module", name := "Database Module",
         description := "Database access layer", status := "implemented" },
       { id := "file-auth-py", type := "file", name := "auth.py",
         description := "Authentication handlers", status := "implemented" },
       { id := "file-models-py", type := "file", name := "models.py",
         description := "Data models", status := "implemented" },
       { id := "func-login", type := "function", name := "login()",
         description := "Handle user login", status := "tested" },
       { id := "func-verify-token", type := "function", name := "verify_token()",
         description := "Verify JWT token", status := "tested" },
       { id := "test-auth", type := "test", name := "test_auth.py",
         description := "Authentication tests", status := "implemented" },
       { id := "test-security", type := "test", name := "test_security.py",
         description := "Security tests", status := "implemented" }],
    edges :=
      [{ source := "cap-auth", target := "mod-api", type := "implements" },
       { source := "cap-auth", target := "mod-db", type := "depends" },
       { source := "mod-api", target := "file-auth-py", type := "implements" },
       { source := "mod-api", target := "file-models-py", type := "depends" },
       { source := "file-auth-py", target := "func-login", type := "implements" },
       { source := "file-auth-py", target := "func-verify-token", type := "implements" },
       { source := "func-login", target := "func-verify-token", type := "calls" },
       { source := "test-auth", target := "func-login", type := "tested_by" },
       { source := "test-security", target := "func-verify-token", type := "tested_by" }] }

/-- Translation of `generate_dna_bundle` (mock_data.py lines 447-496); `now`
is the clock reading stored in the bundle timestamp, and the ambient random
state is consumed by the inner `generate_prompt_dna` call. -/
def generate_dna_bundle (now : Nat) (candidate : Candidate) (r : PyRng) :
    DNABundle × PyRng :=
  let pr := generate_prompt_dna candidate.generation candidate.id
    candidate.parent_ids r
  ({ id := "bundle-" ++ candidate.id,
     candidate_id := candidate.id,
     code_layer :=
       { branch := candidate.branch,
         commit_id := candidate.commit_id,
         diff_summary := "Added JWT authentication with bcrypt password hashing",
         files_changed := 5,
         lines_added := 234,
         lines_removed := 12,
         diff_url := some ("https://github.com/example/gad-run/commit/" ++ candidate.commit_id) },
     prompt_layer := pr.1,
     evaluator_layer :=
       { reviewer_reliabilities :=
           [("reviewer-security-001", 0.95), ("reviewer-performance-001", 0.88),
            ("reviewer-ux-001", 0.92), ("reviewer-quality-001", 0.90)],
         anti_cheat_seed := "seed-" ++ candidate.id,
         ucb_stats :=
           [{ agent_id := candidate.generator_agent_id, mean_reward := 0.75,
              confidence_interval := 0.05, exploration_bonus := 0.08,
              total_score := 0.88, times_selected := 15 }],
         policy_version := "v1.2.0",
         merkle_root := "merkle-" ++ candidate.commit_id },
     provenance_hash := "hash-" ++ candidate.id,
     parent_hashes := candidate.parent_ids.map (fun p => "hash-" ++ p),
     timestamp := now }, pr.2)

/-- The `for i in range(5)` loop of `create_sample_run`: each generation's
survivors seed the next one.  The first argument counts the remaining
iterations, the second is the running generation number. -/
def generation_loop (now : Nat) :
    Nat → Nat → List String → PyRng → List Generation × PyRng
  | 0, _, _, r => ([], r)
  | n + 1, i, parents, r =>
    let g := generate_generation now i parents r
    let rest := generation_loop now n (i + 1) g.1.survivors g.2
    (g.1 :: rest.1, rest.2)

/-- The final-candidate computation of `create_sample_run` (mock_data.py
lines 519-523): the first survivor of the last generation, when present. -/
def final_candidate_of (generations : List Generation) : Option String :=
  match generations.getLast? with
  | some g => g.survivors.head?
  | none => none

/-- Translation of `create_sample_run` (mock_data.py lines 499-534).  The
function begins with `random.seed(42)`, so the ambient random state it was
called with is discarded; the wall clock reading `now` is the only other
ambient input. -/
def create_sample_run (now : Nat) (ambient : PyRng) : GADRun :=
  let _ := ambient
  let gl := generation_loop now 5 0 [] (pySeed 42)
  let generations := gl.1
  let final_candidate : Option String := final_candidate_of generations
  { id := "sample-run-001",
    name := "JWT Authentication API Implementation",
    requirement := "Implement a secure REST API endpoint for user authentication with JWT tokens. The system must handle login, token validation, and refresh. All inputs must be validated, passwords must be hashed with bcrypt, and the system must be rate-limited to prevent abuse.",
    total_generations := 5,
    generations := generations,
    final_candidate_id := final_candidate,
    rpg := generate_rpg,
    agents := generate_agents }

/-- Translation of `get_dna_bundle` (mock_data.py lines 553-559): scan the
run for the candidate and materialize its bundle; the `ValueError` raised on
an unknown id becomes an `Except.error`. -/
def get_dna_bundle (now : Nat) (run : GADRun) (candidate_id : String)
    (r : PyRng) : Except String DNABundle × PyRng :=
  match ((run.generations.map (·.candidates)).flatten).find?
      (fun c => c.id == candidate_id) with
  | some c =>
    let b := generate_dna_bundle now c r
    (Except.ok b.1, b.2)
  | none => (Except.error ("Candidate " ++ candidate_id ++ " not found"), r)

/-- Dominance on the default objective axes, following the spec text of
section 4.3: A dominates B iff A is at least B on both axes (security
score, performance score) and strictly greater on at least one. -/
def spec_dominates (a b : Candidate) : Prop :=
  (b.metrics.security_score ≤ a.metrics.security_score ∧
   b.metrics.performance_score ≤ a.metrics.performance_score) ∧
  (b.metrics.security_score < a.metrics.security_score ∨
   b.metrics.performance_score < a.metrics.performance_score)

instance (a b : Candidate) : Decidable (spec_dominates a b) :=
  inferInstanceAs (Decidable (_ ∧ _))

/-- Comparison following the spec text of section 4.4: descending by
effective score with ties broken by ascending id. -/
def spec_tiebreak_le (a b : Candidate) : Bool :=
  decide (b.effective_score < a.effective_score ∨
    (a.effective_score = b.effective_score ∧ a.id ≤ b.id))

/-- Survivor selection following the spec text of section 4.4, for
comparison with the source's `survivor_selection`: filter to gate-passing
candidates, sort descending by effective score with ties broken by
ascending id, take the top three when at least two pass, nothing
otherwise. -/
def spec_survivor_selection (cs : List Candidate) : List Candidate :=
  let passing := cs.filter (·.gates_passed)
  if 2 ≤ passing.length then (stableSort spec_tiebreak_le passing).take 3 else []

/-- Modelled from the spec: the repository contains no bandit decision
procedure (mock_data.py lines 292-318 only emit hardcoded `UCBStats`
snapshots with positive `times_selected`), so the UCB1 allocation score of
spec section 4.5 is modelled from the spec text: `mean_reward +
c * sqrt(ln N / times_selected)`, with infinite priority when
`times_selected = 0`. -/
noncomputable def ucb_allocation_score (stats : UCBStats) (bigN : Nat)
    (c : ℝ) : WithTop ℝ :=
  if stats.times_selected = 0 then ⊤
  else ((stats.mean_reward : ℝ) +
    c * Real.sqrt (Real.log bigN / stats.times_selected) : ℝ)

/-- Erase the recorded clock reading of a reviewer comment. -/
def scrub_comment (c : ReviewerComment) : ReviewerComment :=
  { c with timestamp := 0 }

/-- Erase the recorded clock readings of a candidate's reviewer comments. -/
def scrub_candidate (c : Candidate) : Candidate :=
  { c with reviewer_comments := c.reviewer_comments.map scrub_comment }

/-- Erase the recorded clock readings of a generation. -/
def scrub_generation (g : Generation) : Generation :=
  { g with candidates := g.candidates.map scrub_candidate }

/-- Erase every recorded clock reading of a run. -/
def scrub_run (run : GADRun) : GADRun :=
  { run with generations := run.generations.map scrub_generation }

/-- Set the recorded clock reading of a reviewer comment. -/
def stamp_comment (now : Nat) (c : ReviewerComment) : ReviewerComment :=
  { c with timestamp := now }

/-- Set the recorded clock readings of a candidate's reviewer comments. -/
def stamp_candidate (now : Nat) (c : Candidate) : Candidate :=
  { c with reviewer_comments := c.reviewer_comments.map (stamp_comment now) }

/-- Set the recorded clock readings of a generation. -/
def stamp_generation (now : Nat) (g : Generation) : Generation :=
  { g with candidates := g.candidates.map (stamp_candidate now) }

/-- Set every recorded clock reading of a run. -/
def stamp_run (now : Nat) (run : GADRun) : GADRun :=
  { run with generations := run.generations.map (stamp_generation now) }

/-- Erase the recorded clock reading of a DNA bundle. -/
def strip_bundle_timestamp (b : DNABundle) : DNABundle :=
  { b with timestamp := 0 }

/-- The timestamp of the first reviewer comment appearing in a run, in
generation-then-candidate order. -/
def first_comment_timestamp (run : GADRun) : Option Nat :=
  ((((run.generations.map (·.candidates)).flatten).map
    (·.reviewer_comments)).flatten).head?.map (·.timestamp)

/-- A metrics record that passes all four gates; used for concrete test
inputs. -/
def mGood : Metrics :=
  { test_pass_rate := 0.9, coverage := 0.9, performance_score := 95,
    security_score := 95, ux_score := 95, style_score := 95,
    license_compliance := true, vulnerability_count := 0 }

/-- A metrics record that fails several gates; used for concrete test
inputs. -/
def mBad : Metrics :=
  { test_pass_rate := 0.5, coverage := 0.4, performance_score := 40,
    security_score := 50, ux_score := 50, style_score := 50,
    license_compliance := false, vulnerability_count := 3 }

/-- A concrete candidate value over the given metrics, with the derived
scoring and gate fields computed the way `generate_candidate` computes
them; used for concrete test inputs. -/
def mkDemoCandidate (idStr : String) (m : Metrics) : Candidate :=
  { id := idStr, generation := 0, parent_ids := [],
    prompt_dna_id := "prompt-dna-" ++ idStr,
    prompt_dna_summary := "demo", metrics := m,
    effective_score := effective_score_of m (generate_gate_results m).1,
    weighted_scores := weighted_scores_of m,
    gates_passed := (generate_gate_results m).1,
    gate_results := (generate_gate_results m).2,
    is_pareto_front := false, selected_for_breeding := false,
    survival_reason := none,
    branch := "gad/gen0/" ++ idStr, commit_id := "abc0000def",
    generator_agent_id := "generator-001", reviewer_comments := [] }

/-- Concrete untried-agent statistics snapshot, used as a test input. -/
def untriedStats : UCBStats :=
  { agent_id := "generator-009", mean_reward := 0, confidence_interval := 0,
    exploration_bonus := 0, total_score := 0, times_selected := 0 }

/-- Concrete exercised-agent statistics snapshot, used as a test input. -/
def triedStats : UCBStats :=
  { agent_id := "generator-001", mean_reward := 0.9,
    confidence_interval := 0.05, exploration_bonus := 0.08,
    total_score := 0.88, times_selected := 15 }

/-! Theorems.  The arithmetic of `Rat` in Batteries is sealed behind
`@[irreducible]`; proofs that evaluate the model on concrete inputs unseal
it locally (a global unseal would let unification dive into `Nat.gcd`
applied to open terms, which does not reduce). -/


theorem mem_orderedInsertB (le : α → α → Bool) (a x : α) :
    ∀ l : List α, x ∈ orderedInsertB le a l ↔ x = a ∨ x ∈ l
  | [] => by simp [orderedInsertB]
  | b :: l => by
    by_cases h : le a b <;>
      simp [orderedInsertB, h, mem_orderedInsertB le a x l] <;> tauto

theorem mem_stableSort (le : α → α → Bool) (x : α) :
    ∀ l : List α, x ∈ stableSort le l ↔ x ∈ l
  | [] => Iff.rfl
  | a :: l => by
    simp [stableSort, mem_orderedInsertB, mem_stableSort le x l]

theorem orderedInsertB_congr (le le' : α → α → Bool) (a : α) :
    ∀ l : List α, (∀ b ∈ l, le a b = le' a b) →
      orderedInsertB le a l = orderedInsertB le' a l
  | [], _ => rfl
  | b :: l, h => by
    have hb : le a b = le' a b := h b (List.mem_cons_self b l)
    by_cases hc : le a b
    · simp [orderedInsertB, hc, hb ▸ hc]
    · have hc' : le' a b = false := by rw [← hb]; exact Bool.of_not_eq_true hc
      simp only [orderedInsertB, hc, hc', if_neg, Bool.false_eq_true,
        not_false_eq_true, if_false]
      exact congrArg (b :: ·)
        (orderedInsertB_congr le le' a l (fun c hcl => h c (List.mem_cons_of_mem b hcl)))

/-- The stable sort by descending effective score agrees with the spec's
sort (descending score, ties by ascending id) on any list whose ids are
strictly ascending: for such a list stability is exactly the id
tie-break. -/
theorem stableSort_eq_spec_sort :
    ∀ l : List Candidate, l.Pairwise (fun a b => a.id < b.id) →
      stableSort score_desc_le l = stableSort spec_tiebreak_le l
  | [], _ => rfl
  | a :: l, h => by
    have hl := (List.pairwise_cons.mp h).2
    have ha := (List.pairwise_cons.mp h).1
    have ih := stableSort_eq_spec_sort l hl
    simp only [stableSort, ih]
    refine orderedInsertB_congr _ _ a _ (fun b hb => ?_)
    have hid : a.id < b.id := ha b ((mem_stableSort _ b l).mp hb)
    simp only [score_desc_le, spec_tiebreak_le]
    refine decide_eq_decide.mpr ?_
    constructor
    · intro hle
      rcases lt_or_eq_of_le hle with hlt | heq
      · exact Or.inl hlt
      · exact Or.inr ⟨heq.symm, le_of_lt hid⟩
    · rintro (hlt | ⟨heq, _⟩)
      · exact le_of_lt hlt
      · exact le_of_eq heq.symm

/-- C1: for every `Metrics` value, `generate_gate_results` returns exactly
four gate results, in the fixed order Minimum Test Pass Rate, Security
Threshold, Zero Critical Vulnerabilities, License Compliance; each gate
passes iff its condition holds (test pass rate at least 0.80, security
score at least 70, vulnerability count zero, license compliance true); all
four are present regardless of earlier failures; and the overall flag is
the conjunction of the four.  In particular a test pass rate below 0.80
fails the first gate and forces the overall flag to false. -/
theorem c1_gate_evaluation (m : Metrics) :
    (generate_gate_results m).2.map (·.gate_name) =
      ["Minimum Test Pass Rate", "Security Threshold",
       "Zero Critical Vulnerabilities", "License Compliance"] ∧
    (generate_gate_results m).2.map (·.passed) =
      [decide ((0.8 : ℚ) ≤ m.test_pass_rate),
       decide ((70 : ℚ) ≤ m.security_score),
       decide (m.vulnerability_count = 0),
       m.license_compliance] ∧
    ((generate_gate_results m).1 = true ↔
      ((0.8 : ℚ) ≤ m.test_pass_rate ∧ (70 : ℚ) ≤ m.security_score ∧
       m.vulnerability_count = 0 ∧ m.license_compliance = true)) ∧
    (m.test_pass_rate < 0.8 →
      ((generate_gate_results m).2.map (·.passed)).head? = some false ∧
      (generate_gate_results m).1 = false) := by
  refine ⟨rfl, rfl, ?_, ?_⟩
  · simp [generate_gate_results, List.all, and_assoc]
  · intro hlt
    have hfail : decide ((0.8 : ℚ) ≤ m.test_pass_rate) = false :=
      decide_eq_false (not_le.mpr hlt)
    constructor
    · simp [generate_gate_results, hfail]
    · simp [generate_gate_results, List.all, hfail]

unseal Rat.add Rat.mul Rat.inv Rat.sub Rat.ofScientific in
theorem c1_gate_evaluation_witness :
    ((generate_gate_results mBad).2.map (·.passed)).head? = some false ∧
    (generate_gate_results mBad).1 = false :=
  (c1_gate_evaluation mBad).2.2.2 (by decide)

/-- C2: for every `Metrics` value evaluated with passing gates, the
effective score is the weighted sum with fixed weights 0.25, 0.25, 0.15,
0.15, 0.10, 0.10, where the fractional test pass rate and coverage are
scaled by 100 before weighting, and the `weighted_scores` breakdown holds
exactly these six weighted terms; moreover every candidate built by
`generate_candidate` carries exactly this score. -/
theorem c2_effective_score_weights (m : Metrics) :
    effective_score_of m true =
      0.25 * (m.test_pass_rate * 100) + 0.25 * m.security_score +
      0.15 * m.performance_score + 0.15 * m.ux_score +
      0.10 * (m.coverage * 100) + 0.10 * m.style_score ∧
    weighted_scores_of m =
      [("test_pass_rate", 0.25 * (m.test_pass_rate * 100)),
       ("security", 0.25 * m.security_score),
       ("performance", 0.15 * m.performance_score),
       ("ux", 0.15 * m.ux_score),
       ("coverage", 0.10 * (m.coverage * 100)),
       ("style", 0.10 * m.style_score)] ∧
    ∀ now gen_num candidate_num parent_ids is_good is_pareto selected r,
      (generate_candidate now gen_num candidate_num parent_ids is_good
        is_pareto selected r).1.effective_score =
      effective_score_of
        (generate_candidate now gen_num candidate_num parent_ids is_good
          is_pareto selected r).1.metrics
        (generate_candidate now gen_num candidate_num parent_ids is_good
          is_pareto selected r).1.gates_passed := by
  refine ⟨?_, ?_, fun _ _ _ _ _ _ _ _ => rfl⟩
  · simp only [effective_score_of, if_pos]
    ring
  · have h1 : m.test_pass_rate * 0.25 * 100 = 0.25 * (m.test_pass_rate * 100) := by ring
    have h2 : m.security_score * 0.25 = 0.25 * m.security_score := by ring
    have h3 : m.performance_score * 0.15 = 0.15 * m.performance_score := by ring
    have h4 : m.ux_score * 0.15 = 0.15 * m.ux_score := by ring
    have h5 : m.coverage * 0.10 * 100 = 0.10 * (m.coverage * 100) := by ring
    have h6 : m.style_score * 0.10 = 0.10 * m.style_score := by ring
    simp only [weighted_scores_of, h1, h2, h3, h4, h5, h6]

/-- C3: for every `Metrics` value, the effective score computed with
failing gates is exactly half the effective score computed from the same
metrics with passing gates: the gate penalty is a pure 0.5 multiplier and
never zeroes the aggregate. -/
theorem c3_gate_failure_penalty (m : Metrics) :
    effective_score_of m false = 0.5 * effective_score_of m true := by
  simp only [effective_score_of, if_pos, Bool.false_eq_true, if_false]
  ring

unseal Rat.add Rat.mul Rat.inv Rat.sub Rat.ofScientific in
/-- C4 counterexample: the `pareto_front` computed by
`generate_generation` keeps every candidate, so on a two-candidate list in
which the first strictly dominates the second on both default axes, the
dominated candidate's point is still a member of the computed front —
refuting the claim that the computed front contains no dominated
candidate. -/
theorem c4_counterexample :
    spec_dominates (mkDemoCandidate "gen0-cand0" mGood)
      (mkDemoCandidate "gen0-cand1" mBad) ∧
    pareto_point_of (mkDemoCandidate "gen0-cand1" mBad) ∈
      pareto_points_of
        [mkDemoCandidate "gen0-cand0" mGood, mkDemoCandidate "gen0-cand1" mBad] := by
  constructor
  · constructor
    · constructor <;> decide
    · left; decide
  · decide

/-- C4 amended: the `pareto_front` list assembled by `generate_generation`
performs no dominance filtering at all: it has exactly one point per
candidate of the generation, and every candidate's point — dominated or
not — is a member. -/
theorem c4_pareto_no_filtering (cs : List Candidate) (c : Candidate)
    (h : c ∈ cs) :
    pareto_point_of c ∈ pareto_points_of cs ∧
    (pareto_points_of cs).length = cs.length :=
  ⟨List.mem_map_of_mem _ h, by simp [pareto_points_of]⟩

unseal Rat.add Rat.mul Rat.inv Rat.sub Rat.ofScientific in
theorem c4_pareto_no_filtering_witness :
    pareto_point_of (mkDemoCandidate "gen0-cand1" mBad) ∈
      pareto_points_of
        [mkDemoCandidate "gen0-cand0" mGood, mkDemoCandidate "gen0-cand1" mBad] ∧
    (pareto_points_of
        [mkDemoCandidate "gen0-cand0" mGood, mkDemoCandidate "gen0-cand1" mBad]).length =
      [mkDemoCandidate "gen0-cand0" mGood, mkDemoCandidate "gen0-cand1" mBad].length :=
  c4_pareto_no_filtering _ _ (by decide)

/-- C5: on every candidate list whose ids are strictly ascending in list
order (which holds for every generated generation, whose candidates are
`gen N-cand0`, `gen N-cand1`, ... in order), the source's survivor
selection equals the spec's: filter to gate-passing candidates, sort
descending by effective score with ties broken by ascending id, take the
top three when at least two pass; and whenever fewer than two candidates
pass the gates the survivor list is empty. -/
theorem c5_survivor_selection (cs : List Candidate)
    (h : cs.Pairwise (fun a b => a.id < b.id)) :
    survivor_selection cs = spec_survivor_selection cs ∧
    ((cs.filter (·.gates_passed)).length < 2 → survivor_selection cs = []) := by
  constructor
  · have hs := stableSort_eq_spec_sort (cs.filter (·.gates_passed)) (h.filter _)
    simp only [survivor_selection, spec_survivor_selection, hs]
  · intro hlt
    have hn : ¬ (2 ≤ (cs.filter (·.gates_passed)).length) := by omega
    simp only [survivor_selection, if_neg hn]

theorem c5_survivor_selection_witness :
    survivor_selection
      [mkDemoCandidate "gen0-cand0" mGood, mkDemoCandidate "gen0-cand1" mGood,
       mkDemoCandidate "gen0-cand2" mBad] =
    spec_survivor_selection
      [mkDemoCandidate "gen0-cand0" mGood, mkDemoCandidate "gen0-cand1" mGood,
       mkDemoCandidate "gen0-cand2" mBad] :=
  (c5_survivor_selection _ (by
    have h01 : ("gen0-cand0" : String) < "gen0-cand1" := by
      rw [String.lt_iff_toList_lt]; decide
    have h02 : ("gen0-cand0" : String) < "gen0-cand2" := by
      rw [String.lt_iff_toList_lt]; decide
    have h12 : ("gen0-cand1" : String) < "gen0-cand2" := by
      rw [String.lt_iff_toList_lt]; decide
    simp only [List.pairwise_cons, List.mem_cons, List.not_mem_nil, or_false,
      List.mem_singleton, List.Pairwise.nil, and_true, mkDemoCandidate]
    refine ⟨fun b hb => ?_, fun b hb => ?_, fun b hb => hb.elim⟩
    · rcases hb with h | h <;> subst h <;> assumption
    · subst hb; exact h12)).1

/-- C7: in any allocation decision round (a list of per-agent statistics),
an agent with `times_selected = 0` receives the maximum priority among all
agents of the round: its allocation score is the infinite sentinel, which
bounds every other agent's score. -/
theorem c7_untried_agent_max_priority (round : List UCBStats) (a : UCBStats)
    (ha : a ∈ round) (h0 : a.times_selected = 0) (bigN : Nat) (c : ℝ) :
    ∀ b ∈ round, ucb_allocation_score b bigN c ≤ ucb_allocation_score a bigN c := by
  intro b _
  simp only [ucb_allocation_score, h0, if_pos]
  exact le_top

theorem c7_untried_agent_max_priority_witness :
    ucb_allocation_score triedStats 20 1 ≤ ucb_allocation_score untriedStats 20 1 :=
  c7_untried_agent_max_priority [untriedStats, triedStats] untriedStats
    (List.mem_cons_self _ _) rfl 20 1 triedStats
    (List.mem_cons_of_mem _ (List.mem_cons_self _ _))

unseal Rat.add Rat.mul Rat.inv Rat.sub Rat.ofScientific in
/-- C8 counterexample: re-materializing the DNA bundle of the same
candidate (same parent hashes, same random state) at a later clock reading
is not bit-identical to the first result: the stored timestamp differs.
This refutes the idempotence claim for the code as written, which stamps
`datetime.now()` into every bundle. -/
theorem c8_counterexample :
    (generate_dna_bundle 0 (mkDemoCandidate "gen0-cand0" mGood) (pySeed 0)).1 ≠
    (generate_dna_bundle 1 (mkDemoCandidate "gen0-cand0" mGood) (pySeed 0)).1 := by
  decide

/-- C8 amended: for a generation-0 candidate the bundle is reproducible
apart from its timestamp: any two materializations — at any clock readings
and any ambient random states — agree exactly after erasing the timestamp
field.  (For candidates of later generations the prompt layer additionally
consumes ambient randomness, so only the timestamp-erased bundles built
from equal random states agree.) -/
theorem c8_bundle_reproducible_modulo_timestamp (now1 now2 : Nat)
    (r1 r2 : PyRng) (c : Candidate) (h : c.generation = 0) :
    strip_bundle_timestamp (generate_dna_bundle now1 c r1).1 =
    strip_bundle_timestamp (generate_dna_bundle now2 c r2).1 := by
  simp [generate_dna_bundle, generate_prompt_dna, strip_bundle_timestamp, h]

theorem c8_bundle_reproducible_modulo_timestamp_witness :
    strip_bundle_timestamp
      (generate_dna_bundle 3 (mkDemoCandidate "gen0-cand0" mGood) (pySeed 5)).1 =
    strip_bundle_timestamp
      (generate_dna_bundle 9 (mkDemoCandidate "gen0-cand0" mGood) (pySeed 11)).1 :=
  c8_bundle_reproducible_modulo_timestamp 3 9 (pySeed 5) (pySeed 11)
    (mkDemoCandidate "gen0-cand0" mGood) rfl

/-- C9 counterexample: the survivor update mutates `survival_reason` — a
field outside the claimed trio — while leaving `effective_score` (which the
claim listed as mutated) unchanged.  Concretely, a candidate whose
`survival_reason` is `none` gets it overwritten. -/
theorem c9_counterexample :
    (update_survivor true (mkDemoCandidate "s" mGood)).survival_reason ≠
      (mkDemoCandidate "s" mGood).survival_reason ∧
    (update_survivor true (mkDemoCandidate "s" mGood)).effective_score =
      (mkDemoCandidate "s" mGood).effective_score := by
  exact ⟨by decide, rfl⟩

/-- C9 amended: the survivor-selection pass changes exactly the three
fields `selected_for_breeding`, `is_pareto_front` and `survival_reason` of
the selected survivors — every other field, including `effective_score`
(set once at candidate creation) and the metrics, is untouched — and a
candidate whose id is not among the updated survivors is left entirely
unchanged by the aliasing update. -/
theorem c9_update_frame (flag : Bool) (c : Candidate) :
    (∀ (updated : List Candidate) (c2 : Candidate),
      c2.id ∉ updated.map (·.id) → apply_survivor_updates updated c2 = c2) ∧
    (update_survivor flag c).selected_for_breeding = true ∧
    (update_survivor flag c).is_pareto_front = flag ∧
    (update_survivor flag c).survival_reason =
      some (if flag then "Pareto optimal" else "High effective score") ∧
    (update_survivor flag c).id = c.id ∧
    (update_survivor flag c).generation = c.generation ∧
    (update_survivor flag c).parent_ids = c.parent_ids ∧
    (update_survivor flag c).prompt_dna_id = c.prompt_dna_id ∧
    (update_survivor flag c).prompt_dna_summary = c.prompt_dna_summary ∧
    (update_survivor flag c).metrics = c.metrics ∧
    (update_survivor flag c).effective_score = c.effective_score ∧
    (update_survivor flag c).weighted_scores = c.weighted_scores ∧
    (update_survivor flag c).gates_passed = c.gates_passed ∧
    (update_survivor flag c).gate_results = c.gate_results ∧
    (update_survivor flag c).branch = c.branch ∧
    (update_survivor flag c).commit_id = c.commit_id ∧
    (update_survivor flag c).generator_agent_id = c.generator_agent_id ∧
    (update_survivor flag c).reviewer_comments = c.reviewer_comments := by
  refine ⟨?_, rfl, rfl, rfl, rfl, rfl, rfl, rfl, rfl, rfl, rfl, rfl, rfl,
    rfl, rfl, rfl, rfl, rfl⟩
  intro updated c2 hnot
  have hfind : updated.find? (fun s => s.id == c2.id) = none := by
    rw [List.find?_eq_none]
    intro x hx hbeq
    have hxid : x.id = c2.id := by simpa using hbeq
    exact hnot (hxid ▸ List.mem_map_of_mem _ hx)
  simp [apply_survivor_updates, hfind]

theorem c9_update_frame_witness :
    apply_survivor_updates [] (mkDemoCandidate "w" mGood) =
      mkDemoCandidate "w" mGood ∧
    (update_survivor true (mkDemoCandidate "w" mGood)).metrics =
      (mkDemoCandidate "w" mGood).metrics :=
  ⟨(c9_update_frame true (mkDemoCandidate "w" mGood)).1 [] _ (by simp),
   (c9_update_frame true (mkDemoCandidate "w" mGood)).2.2.2.2.2.2.2.2.2.1⟩

theorem survivor_selection_gates (cs : List Candidate) :
    ∀ c ∈ survivor_selection cs, c.gates_passed = true := by
  intro c hc
  simp only [survivor_selection] at hc
  by_cases h2 : 2 ≤ (cs.filter (·.gates_passed)).length
  · rw [if_pos h2] at hc
    have hmem := (mem_stableSort _ c _).mp (List.take_subset _ _ hc)
    exact (List.mem_filter.mp hmem).2
  · rw [if_neg h2] at hc
    cases hc

theorem update_survivor_gates (f : Bool) (x : Candidate) :
    (update_survivor f x).gates_passed = x.gates_passed := rfl

theorem update_survivors_loop_gates (l : List Candidate) :
    ∀ (r : PyRng), (∀ c ∈ l, c.gates_passed = true) →
      ∀ c ∈ (update_survivors_loop l r).1, c.gates_passed = true := by
  induction l with
  | nil => intro r _ c hc; cases hc
  | cons x l ih =>
    intro r h c hc
    simp only [update_survivors_loop] at hc
    rcases List.mem_cons.mp hc with hcx | hcl
    · rw [hcx, update_survivor_gates]
      exact h x (List.mem_cons_self x l)
    · exact ih _ (fun d hd => h d (List.mem_cons_of_mem x hd)) c hcl

theorem length_filter_le_length_filter_map (φ : Candidate → Candidate)
    (hφ : ∀ x, x.gates_passed = true → (φ x).gates_passed = true) :
    ∀ l : List Candidate,
      (l.filter (·.gates_passed)).length ≤
      ((l.map φ).filter (·.gates_passed)).length
  | [] => Nat.le_refl 0
  | x :: l => by
    have ih := length_filter_le_length_filter_map φ hφ l
    simp only [List.map_cons, List.filter_cons]
    by_cases hx : x.gates_passed = true
    · rw [if_pos (by simpa using hx), if_pos (by simpa using hφ x hx)]
      simpa using Nat.succ_le_succ ih
    · rw [if_neg (by simpa using hx)]
      by_cases hp : (φ x).gates_passed = true
      · rw [if_pos (by simpa using hp)]
        simp only [List.length_cons]
        exact Nat.le_succ_of_le ih
      · rw [if_neg (by simpa using hp)]
        exact ih

/-- When fewer than two candidates of the produced generation pass the
gates, the generation's survivor list is empty. -/
theorem generation_insufficient_gives_empty (now gen_num : Nat)
    (parents : List String) (r : PyRng)
    (h : ((generate_generation now gen_num parents r).1.candidates.filter
      (·.gates_passed)).length < 2) :
    (generate_generation now gen_num parents r).1.survivors = [] := by
  simp only [generate_generation] at h ⊢
  set cs := (generation_candidates now gen_num parents r).1 with hcs
  set r2 := (generation_candidates now gen_num parents r).2 with hr2
  set upd := (update_survivors_loop (survivor_selection cs) r2).1 with hupd
  have hφ : ∀ x : Candidate, x.gates_passed = true →
      (apply_survivor_updates upd x).gates_passed = true := by
    intro x hx
    unfold apply_survivor_updates
    cases hfind : upd.find? (fun s => s.id == x.id) with
    | none => simpa using hx
    | some u =>
      have hu : u ∈ upd := List.mem_of_find?_eq_some hfind
      have hg : u.gates_passed = true :=
        update_survivors_loop_gates (survivor_selection cs) r2
          (survivor_selection_gates cs) u hu
      simpa using hg
  have hmono := length_filter_le_length_filter_map _ hφ cs
  have hcs2 : (cs.filter (·.gates_passed)).length < 2 :=
    Nat.lt_of_le_of_lt hmono h
  have hsel : survivor_selection cs = [] := by
    simp only [survivor_selection, if_neg (by omega : ¬ 2 ≤ (cs.filter (·.gates_passed)).length)]
  rw [hupd, hsel]
  rfl

theorem generation_loop_length (now : Nat) :
    ∀ (n i : Nat) (parents : List String) (r : PyRng),
      (generation_loop now n i parents r).1.length = n
  | 0, _, _, _ => rfl
  | n + 1, i, p, r => by
    simp [generation_loop, generation_loop_length now n]

set_option maxRecDepth 200000 in
unseal pyRandom pyRandInt Rat.add Rat.mul Rat.inv Rat.sub Rat.ofScientific in
/-- C6 counterexample, on the sample run itself: generation number 2 of
`create_sample_run` has exactly one gate-passing candidate, yet no error of
any kind is raised (every function involved is total and returns ordinary
values), the generation is recorded with an empty survivor list rather than
as failed, and generations 3 and 4 are still produced after it — the run
always holds five generations. -/
theorem c6_counterexample :
    ((create_sample_run 0 (pySeed 0)).generations[2]?).map
      (fun g => ((g.candidates.filter (·.gates_passed)).length, g.survivors)) =
      some (1, []) ∧
    (create_sample_run 0 (pySeed 0)).generations.length = 5 := by
  exact ⟨by decide, by decide⟩

/-- C6 amended: a generation with fewer than two gate-passing candidates is
not a terminal condition: `generate_generation` returns it as an ordinary
`Generation` value with an empty survivor list (there is no
`InsufficientSurvivorsError` anywhere in the code), and `create_sample_run`
unconditionally produces all five generations regardless of any survivor
shortfall. -/
theorem c6_no_terminal_error :
    (∀ (now gen_num : Nat) (parents : List String) (r : PyRng),
      ((generate_generation now gen_num parents r).1.candidates.filter
        (·.gates_passed)).length < 2 →
      (generate_generation now gen_num parents r).1.survivors = []) ∧
    (∀ (now : Nat) (r : PyRng),
      (create_sample_run now r).generations.length = 5) := by
  constructor
  · exact generation_insufficient_gives_empty
  · intro now r
    simp [create_sample_run, generation_loop_length now]

set_option maxRecDepth 200000 in
unseal pyRandom pyRandInt Rat.add Rat.mul Rat.inv Rat.sub Rat.ofScientific in
theorem c6_no_terminal_error_witness :
    (generate_generation 0 0 [] (pySeed 1)).1.survivors = [] ∧
    (create_sample_run 7 (pySeed 3)).generations.length = 5 :=
  ⟨c6_no_terminal_error.1 0 0 [] (pySeed 1) (by decide),
   c6_no_terminal_error.2 7 (pySeed 3)⟩

/-! Auxiliary lemmas for C10: the clock reading `now` flows into the run
only through the reviewer-comment timestamps, so a run built at clock `now`
is the timestamp-stamped image of the run built at clock 0. -/

theorem stamp_candidate_id (now : Nat) (c : Candidate) :
    (stamp_candidate now c).id = c.id := rfl

theorem stamp_candidate_gates (now : Nat) (c : Candidate) :
    (stamp_candidate now c).gates_passed = c.gates_passed := rfl

theorem reviewer_comments_stamp (now : Nat) (m : Metrics) (gp : Bool) :
    generate_reviewer_comments now m gp =
      (generate_reviewer_comments 0 m gp).map (stamp_comment now) := by
  unfold generate_reviewer_comments
  split_ifs <;> rfl

theorem generate_candidate_stamp (now gen_num candidate_num : Nat)
    (parent_ids : List String) (is_good is_pareto selected : Bool)
    (r : PyRng) :
    generate_candidate now gen_num candidate_num parent_ids is_good
        is_pareto selected r =
      (stamp_candidate now
        (generate_candidate 0 gen_num candidate_num parent_ids is_good
          is_pareto selected r).1,
       (generate_candidate 0 gen_num candidate_num parent_ids is_good
          is_pareto selected r).2) := by
  simp only [generate_candidate, stamp_candidate]
  rw [reviewer_comments_stamp now]

theorem generate_candidate_stamp_fst (now gen_num candidate_num : Nat)
    (parent_ids : List String) (is_good is_pareto selected : Bool)
    (r : PyRng) :
    (generate_candidate now gen_num candidate_num parent_ids is_good
        is_pareto selected r).1 =
      stamp_candidate now
        (generate_candidate 0 gen_num candidate_num parent_ids is_good
          is_pareto selected r).1 := by
  rw [generate_candidate_stamp now]

theorem generate_candidate_stamp_snd (now gen_num candidate_num : Nat)
    (parent_ids : List String) (is_good is_pareto selected : Bool)
    (r : PyRng) :
    (generate_candidate now gen_num candidate_num parent_ids is_good
        is_pareto selected r).2 =
      (generate_candidate 0 gen_num candidate_num parent_ids is_good
        is_pareto selected r).2 := by
  rw [generate_candidate_stamp now]

theorem candidate_step_stamp_fst (now gen_num i : Nat)
    (parents : List String) (r : PyRng) :
    (candidate_step now gen_num i parents r).1 =
      stamp_candidate now (candidate_step 0 gen_num i parents r).1 :=
  generate_candidate_stamp_fst now gen_num i _ _ false false _

theorem candidate_step_stamp_snd (now gen_num i : Nat)
    (parents : List String) (r : PyRng) :
    (candidate_step now gen_num i parents r).2 =
      (candidate_step 0 gen_num i parents r).2 :=
  generate_candidate_stamp_snd now gen_num i _ _ false false _

theorem candidate_loop_stamp (now gen_num : Nat) (parents : List String) :
    ∀ (n i : Nat) (r : PyRng),
      candidate_loop now gen_num parents n i r =
        ((candidate_loop 0 gen_num parents n i r).1.map (stamp_candidate now),
         (candidate_loop 0 gen_num parents n i r).2) := by
  intro n
  induction n with
  | zero => intro i r; rfl
  | succ n ih =>
    intro i r
    have eN : candidate_loop now gen_num parents (n + 1) i r =
        ((candidate_step now gen_num i parents r).1 ::
          (candidate_loop now gen_num parents n (i + 1)
            (candidate_step now gen_num i parents r).2).1,
         (candidate_loop now gen_num parents n (i + 1)
           (candidate_step now gen_num i parents r).2).2) := rfl
    have e0 : candidate_loop 0 gen_num parents (n + 1) i r =
        ((candidate_step 0 gen_num i parents r).1 ::
          (candidate_loop 0 gen_num parents n (i + 1)
            (candidate_step 0 gen_num i parents r).2).1,
         (candidate_loop 0 gen_num parents n (i + 1)
           (candidate_step 0 gen_num i parents r).2).2) := rfl
    have e0f : (candidate_loop 0 gen_num parents (n + 1) i r).1 =
        (candidate_step 0 gen_num i parents r).1 ::
          (candidate_loop 0 gen_num parents n (i + 1)
            (candidate_step 0 gen_num i parents r).2).1 :=
      congrArg Prod.fst e0
    have e0s : (candidate_loop 0 gen_num parents (n + 1) i r).2 =
        (candidate_loop 0 gen_num parents n (i + 1)
          (candidate_step 0 gen_num i parents r).2).2 :=
      (congrArg Prod.snd e0).trans rfl
    rw [eN, e0f, e0s, List.map_cons, candidate_step_stamp_fst now,
      candidate_step_stamp_snd now,
      ih (i + 1) ((candidate_step 0 gen_num i parents r).2)]

theorem candidate_loop_stamp_fst (now gen_num : Nat) (parents : List String)
    (n i : Nat) (r : PyRng) :
    (candidate_loop now gen_num parents n i r).1 =
      (candidate_loop 0 gen_num parents n i r).1.map (stamp_candidate now) :=
  congrArg Prod.fst (candidate_loop_stamp now gen_num parents n i r)

theorem candidate_loop_stamp_snd (now gen_num : Nat) (parents : List String)
    (n i : Nat) (r : PyRng) :
    (candidate_loop now gen_num parents n i r).2 =
      (candidate_loop 0 gen_num parents n i r).2 :=
  (congrArg Prod.snd (candidate_loop_stamp now gen_num parents n i r)).trans rfl

theorem generation_candidates_stamp_fst (now gen_num : Nat)
    (parents : List String) (r : PyRng) :
    (generation_candidates now gen_num parents r).1 =
      (generation_candidates 0 gen_num parents r).1.map
        (stamp_candidate now) :=
  candidate_loop_stamp_fst now gen_num parents
    (if gen_num = 0 then ((8, r) : Nat × PyRng) else pyRandInt 6 8 r).1 0
    (if gen_num = 0 then ((8, r) : Nat × PyRng) else pyRandInt 6 8 r).2

theorem generation_candidates_stamp_snd (now gen_num : Nat)
    (parents : List String) (r : PyRng) :
    (generation_candidates now gen_num parents r).2 =
      (generation_candidates 0 gen_num parents r).2 :=
  candidate_loop_stamp_snd now gen_num parents
    (if gen_num = 0 then ((8, r) : Nat × PyRng) else pyRandInt 6 8 r).1 0
    (if gen_num = 0 then ((8, r) : Nat × PyRng) else pyRandInt 6 8 r).2

theorem filter_gates_map_stamp (now : Nat) :
    ∀ l : List Candidate,
      (l.map (stamp_candidate now)).filter (·.gates_passed) =
      (l.filter (·.gates_passed)).map (stamp_candidate now)
  | [] => rfl
  | x :: l => by
    simp only [List.map_cons, List.filter_cons, stamp_candidate_gates]
    by_cases hx : x.gates_passed = true
    · simp only [hx, if_pos, List.map_cons, filter_gates_map_stamp now l]
    · simp only [Bool.not_eq_true] at hx
      simp only [hx, Bool.false_eq_true, if_false, filter_gates_map_stamp now l]

theorem score_desc_le_stamp (now : Nat) (a b : Candidate) :
    score_desc_le (stamp_candidate now a) (stamp_candidate now b) =
      score_desc_le a b := rfl

theorem orderedInsertB_map_stamp (now : Nat) (a : Candidate) :
    ∀ l : List Candidate,
      orderedInsertB score_desc_le (stamp_candidate now a)
        (l.map (stamp_candidate now)) =
      (orderedInsertB score_desc_le a l).map (stamp_candidate now)
  | [] => rfl
  | b :: l => by
    simp only [List.map_cons, orderedInsertB, score_desc_le_stamp]
    by_cases hc : score_desc_le a b = true
    · simp only [hc, if_pos, List.map_cons]
    · simp only [Bool.not_eq_true] at hc
      simp only [hc, Bool.false_eq_true, if_false, List.map_cons,
        orderedInsertB_map_stamp now a l]

theorem stableSort_map_stamp (now : Nat) :
    ∀ l : List Candidate,
      stableSort score_desc_le (l.map (stamp_candidate now)) =
      (stableSort score_desc_le l).map (stamp_candidate now)
  | [] => rfl
  | a :: l => by
    simp only [List.map_cons, stableSort, stableSort_map_stamp now l,
      orderedInsertB_map_stamp now a]

theorem survivor_selection_stamp (now : Nat) (cs : List Candidate) :
    survivor_selection (cs.map (stamp_candidate now)) =
      (survivor_selection cs).map (stamp_candidate now) := by
  simp only [survivor_selection, filter_gates_map_stamp now,
    List.length_map, stableSort_map_stamp now]
  split_ifs with h
  · rw [List.map_take]
  · rfl

theorem update_survivor_stamp (now : Nat) (f : Bool) (c : Candidate) :
    update_survivor f (stamp_candidate now c) =
      stamp_candidate now (update_survivor f c) := rfl

theorem update_survivors_loop_stamp (now : Nat) :
    ∀ (l : List Candidate) (r : PyRng),
      update_survivors_loop (l.map (stamp_candidate now)) r =
        ((update_survivors_loop l r).1.map (stamp_candidate now),
         (update_survivors_loop l r).2) := by
  intro l
  induction l with
  | nil => intro r; rfl
  | cons x l ih =>
    intro r
    have eN : update_survivors_loop ((x :: l).map (stamp_candidate now)) r =
        (update_survivor (decide ((0.5 : ℚ) < (pyRandom r).1))
            (stamp_candidate now x) ::
          (update_survivors_loop (l.map (stamp_candidate now))
            (pyRandom r).2).1,
         (update_survivors_loop (l.map (stamp_candidate now))
           (pyRandom r).2).2) := rfl
    have e0 : update_survivors_loop (x :: l) r =
        (update_survivor (decide ((0.5 : ℚ) < (pyRandom r).1)) x ::
          (update_survivors_loop l (pyRandom r).2).1,
         (update_survivors_loop l (pyRandom r).2).2) := rfl
    have e0f : (update_survivors_loop (x :: l) r).1 =
        update_survivor (decide ((0.5 : ℚ) < (pyRandom r).1)) x ::
          (update_survivors_loop l (pyRandom r).2).1 :=
      congrArg Prod.fst e0
    have e0s : (update_survivors_loop (x :: l) r).2 =
        (update_survivors_loop l (pyRandom r).2).2 :=
      (congrArg Prod.snd e0).trans rfl
    rw [eN, e0f, e0s, List.map_cons, update_survivor_stamp,
      ih (pyRandom r).2]

theorem update_survivors_loop_stamp_fst (now : Nat) (l : List Candidate)
    (r : PyRng) :
    (update_survivors_loop (l.map (stamp_candidate now)) r).1 =
      (update_survivors_loop l r).1.map (stamp_candidate now) :=
  congrArg Prod.fst (update_survivors_loop_stamp now l r)

theorem update_survivors_loop_stamp_snd (now : Nat) (l : List Candidate)
    (r : PyRng) :
    (update_survivors_loop (l.map (stamp_candidate now)) r).2 =
      (update_survivors_loop l r).2 :=
  (congrArg Prod.snd (update_survivors_loop_stamp now l r)).trans rfl

theorem find?_id_map_stamp (now : Nat) (s : String) :
    ∀ upd : List Candidate,
      (upd.map (stamp_candidate now)).find? (fun u => u.id == s) =
      (upd.find? (fun u => u.id == s)).map (stamp_candidate now)
  | [] => rfl
  | u :: upd => by
    by_cases hu : (u.id == s) = true
    · rw [List.map_cons,
        @List.find?_cons_of_pos Candidate (fun x => x.id == s)
          (stamp_candidate now u) (upd.map (stamp_candidate now))
          (by simp only [stamp_candidate_id]; exact hu),
        @List.find?_cons_of_pos Candidate (fun x => x.id == s) u upd hu]
      rfl
    · rw [List.map_cons,
        @List.find?_cons_of_neg Candidate (fun x => x.id == s)
          (stamp_candidate now u) (upd.map (stamp_candidate now))
          (by simp only [stamp_candidate_id]; exact hu),
        @List.find?_cons_of_neg Candidate (fun x => x.id == s) u upd hu,
        find?_id_map_stamp now s upd]

theorem apply_survivor_updates_stamp (now : Nat) (upd : List Candidate)
    (c : Candidate) :
    apply_survivor_updates (upd.map (stamp_candidate now))
        (stamp_candidate now c) =
      stamp_candidate now (apply_survivor_updates upd c) := by
  unfold apply_survivor_updates
  rw [stamp_candidate_id, find?_id_map_stamp now]
  cases upd.find? (fun u => u.id == c.id) with
  | none => rfl
  | some u => rfl

theorem map_apply_survivor_updates_stamp (now : Nat)
    (upd : List Candidate) :
    ∀ cs : List Candidate,
      (cs.map (stamp_candidate now)).map
          (apply_survivor_updates (upd.map (stamp_candidate now))) =
      (cs.map (apply_survivor_updates upd)).map (stamp_candidate now)
  | [] => rfl
  | c :: cs => by
    simp only [List.map_cons, apply_survivor_updates_stamp now upd c,
      map_apply_survivor_updates_stamp now upd cs]

theorem pareto_point_of_stamp (now : Nat) (c : Candidate) :
    pareto_point_of (stamp_candidate now c) = pareto_point_of c := rfl

theorem pareto_points_of_map_stamp (now : Nat) (cs : List Candidate) :
    pareto_points_of (cs.map (stamp_candidate now)) = pareto_points_of cs := by
  unfold pareto_points_of
  rw [List.map_map]
  exact List.map_congr_left (fun c _ => rfl)

theorem map_id_map_stamp (now : Nat) (l : List Candidate) :
    (l.map (stamp_candidate now)).map (·.id) = l.map (·.id) := by
  rw [List.map_map]
  exact List.map_congr_left (fun c _ => rfl)

theorem breeding_pairs_of_map_stamp (now : Nat) (l : List Candidate) :
    breeding_pairs_of (l.map (stamp_candidate now)) = breeding_pairs_of l := by
  rcases l with _ | ⟨a, _ | ⟨b, _ | ⟨c, t⟩⟩⟩ <;> rfl

theorem generate_generation_stamp (now gen_num : Nat)
    (parents : List String) (r : PyRng) :
    generate_generation now gen_num parents r =
      (stamp_generation now (generate_generation 0 gen_num parents r).1,
       (generate_generation 0 gen_num parents r).2) := by
  have eN : generate_generation now gen_num parents r =
      ({ number := gen_num,
         candidates := (generation_candidates now gen_num parents r).1.map
           (apply_survivor_updates
             (update_survivors_loop
               (survivor_selection (generation_candidates now gen_num parents r).1)
               (generation_candidates now gen_num parents r).2).1),
         pareto_front := pareto_points_of
           ((generation_candidates now gen_num parents r).1.map
             (apply_survivor_updates
               (update_survivors_loop
                 (survivor_selection (generation_candidates now gen_num parents r).1)
                 (generation_candidates now gen_num parents r).2).1)),
         ucb_allocations := (generate_ucb_allocations gen_num
           (update_survivors_loop
             (survivor_selection (generation_candidates now gen_num parents r).1)
             (generation_candidates now gen_num parents r).2).2).1,
         survivors := (update_survivors_loop
           (survivor_selection (generation_candidates now gen_num parents r).1)
           (generation_candidates now gen_num parents r).2).1.map (·.id),
         breeding_pairs := breeding_pairs_of
           (update_survivors_loop
             (survivor_selection (generation_candidates now gen_num parents r).1)
             (generation_candidates now gen_num parents r).2).1,
         summary := "Generation " ++ toString gen_num ++ ": " ++
           toString (generation_candidates now gen_num parents r).1.length ++
           " candidates, " ++
           toString (update_survivors_loop
             (survivor_selection (generation_candidates now gen_num parents r).1)
             (generation_candidates now gen_num parents r).2).1.length ++
           " survivors" },
       (generate_ucb_allocations gen_num
         (update_survivors_loop
           (survivor_selection (generation_candidates now gen_num parents r).1)
           (generation_candidates now gen_num parents r).2).2).2) := rfl
  have e0 : generate_generation 0 gen_num parents r =
      ({ number := gen_num,
         candidates := (generation_candidates 0 gen_num parents r).1.map
           (apply_survivor_updates
             (update_survivors_loop
               (survivor_selection (generation_candidates 0 gen_num parents r).1)
               (generation_candidates 0 gen_num parents r).2).1),
         pareto_front := pareto_points_of
           ((generation_candidates 0 gen_num parents r).1.map
             (apply_survivor_updates
               (update_survivors_loop
                 (survivor_selection (generation_candidates 0 gen_num parents r).1)
                 (generation_candidates 0 gen_num parents r).2).1)),
         ucb_allocations := (generate_ucb_allocations gen_num
           (update_survivors_loop
             (survivor_selection (generation_candidates 0 gen_num parents r).1)
             (generation_candidates 0 gen_num parents r).2).2).1,
         survivors := (update_survivors_loop
           (survivor_selection (generation_candidates 0 gen_num parents r).1)
           (generation_candidates 0 gen_num parents r).2).1.map (·.id),
         breeding_pairs := breeding_pairs_of
           (update_survivors_loop
             (survivor_selection (generation_candidates 0 gen_num parents r).1)
             (generation_candidates 0 gen_num parents r).2).1,
         summary := "Generation " ++ toString gen_num ++ ": " ++
           toString (generation_candidates 0 gen_num parents r).1.length ++
           " candidates, " ++
           toString (update_survivors_loop
             (survivor_selection (generation_candidates 0 gen_num parents r).1)
             (generation_candidates 0 gen_num parents r).2).1.length ++
           " survivors" },
       (generate_ucb_allocations gen_num
         (update_survivors_loop
           (survivor_selection (generation_candidates 0 gen_num parents r).1)
           (generation_candidates 0 gen_num parents r).2).2).2) := rfl
  have e0f := congrArg Prod.fst e0
  have e0s := congrArg Prod.snd e0
  rw [eN, e0f, e0s, generation_candidates_stamp_fst now,
    generation_candidates_stamp_snd now, survivor_selection_stamp now,
    update_survivors_loop_stamp_fst now, update_survivors_loop_stamp_snd now,
    map_apply_survivor_updates_stamp now, pareto_points_of_map_stamp now,
    map_id_map_stamp now, breeding_pairs_of_map_stamp now]
  simp only [List.length_map]
  rfl

theorem generate_generation_stamp_fst (now gen_num : Nat)
    (parents : List String) (r : PyRng) :
    (generate_generation now gen_num parents r).1 =
      stamp_generation now (generate_generation 0 gen_num parents r).1 :=
  congrArg Prod.fst (generate_generation_stamp now gen_num parents r)

theorem generate_generation_stamp_snd (now gen_num : Nat)
    (parents : List String) (r : PyRng) :
    (generate_generation now gen_num parents r).2 =
      (generate_generation 0 gen_num parents r).2 :=
  (congrArg Prod.snd (generate_generation_stamp now gen_num parents r)).trans rfl

theorem stamp_generation_survivors (now : Nat) (g : Generation) :
    (stamp_generation now g).survivors = g.survivors := rfl

theorem generation_loop_stamp (now : Nat) :
    ∀ (n i : Nat) (parents : List String) (r : PyRng),
      generation_loop now n i parents r =
        ((generation_loop 0 n i parents r).1.map (stamp_generation now),
         (generation_loop 0 n i parents r).2) := by
  intro n
  induction n with
  | zero => intro i parents r; rfl
  | succ n ih =>
    intro i parents r
    have eN : generation_loop now (n + 1) i parents r =
        ((generate_generation now i parents r).1 ::
          (generation_loop now n (i + 1)
            (generate_generation now i parents r).1.survivors
            (generate_generation now i parents r).2).1,
         (generation_loop now n (i + 1)
           (generate_generation now i parents r).1.survivors
           (generate_generation now i parents r).2).2) := rfl
    have e0 : generation_loop 0 (n + 1) i parents r =
        ((generate_generation 0 i parents r).1 ::
          (generation_loop 0 n (i + 1)
            (generate_generation 0 i parents r).1.survivors
            (generate_generation 0 i parents r).2).1,
         (generation_loop 0 n (i + 1)
           (generate_generation 0 i parents r).1.survivors
           (generate_generation 0 i parents r).2).2) := rfl
    have e0f := congrArg Prod.fst e0
    have e0s := congrArg Prod.snd e0
    rw [eN, e0f, e0s, List.map_cons, generate_generation_stamp_fst now,
      generate_generation_stamp_snd now, stamp_generation_survivors,
      ih (i + 1) ((generate_generation 0 i parents r).1.survivors)
        ((generate_generation 0 i parents r).2)]

theorem generation_loop_stamp_fst (now n i : Nat) (parents : List String)
    (r : PyRng) :
    (generation_loop now n i parents r).1 =
      (generation_loop 0 n i parents r).1.map (stamp_generation now) :=
  congrArg Prod.fst (generation_loop_stamp now n i parents r)

theorem final_candidate_of_map_stamp (now : Nat) (l : List Generation) :
    final_candidate_of (l.map (stamp_generation now)) =
      final_candidate_of l := by
  unfold final_candidate_of
  rw [List.getLast?_map]
  cases l.getLast? with
  | none => rfl
  | some g => rfl

theorem create_sample_run_stamp (now : Nat) (r : PyRng) :
    create_sample_run now r = stamp_run now (create_sample_run 0 r) := by
  have eN : create_sample_run now r =
      { id := "sample-run-001",
        name := "JWT Authentication API Implementation",
        requirement := "Implement a secure REST API endpoint for user authentication with JWT tokens. The system must handle login, token validation, and refresh. All inputs must be validated, passwords must be hashed with bcrypt, and the system must be rate-limited to prevent abuse.",
        total_generations := 5,
        generations := (generation_loop now 5 0 [] (pySeed 42)).1,
        final_candidate_id :=
          final_candidate_of (generation_loop now 5 0 [] (pySeed 42)).1,
        rpg := generate_rpg,
        agents := generate_agents } := rfl
  have e0 : stamp_run now (create_sample_run 0 r) =
      { id := "sample-run-001",
        name := "JWT Authentication API Implementation",
        requirement := "Implement a secure REST API endpoint for user authentication with JWT tokens. The system must handle login, token validation, and refresh. All inputs must be validated, passwords must be hashed with bcrypt, and the system must be rate-limited to prevent abuse.",
        total_generations := 5,
        generations := (generation_loop 0 5 0 [] (pySeed 42)).1.map
          (stamp_generation now),
        final_candidate_id :=
          final_candidate_of (generation_loop 0 5 0 [] (pySeed 42)).1,
        rpg := generate_rpg,
        agents := generate_agents } := rfl
  rw [eN, e0, generation_loop_stamp_fst now 5 0 [] (pySeed 42),
    final_candidate_of_map_stamp now]

theorem scrub_comment_comp_stamp (now : Nat) :
    scrub_comment ∘ stamp_comment now = scrub_comment :=
  funext fun _ => rfl

theorem scrub_candidate_stamp (now : Nat) (c : Candidate) :
    scrub_candidate (stamp_candidate now c) = scrub_candidate c := by
  have e1 : scrub_candidate (stamp_candidate now c) =
      { c with reviewer_comments :=
          (c.reviewer_comments.map (stamp_comment now)).map scrub_comment } := rfl
  have e2 : scrub_candidate c =
      { c with reviewer_comments := c.reviewer_comments.map scrub_comment } := rfl
  rw [e1, e2, List.map_map, scrub_comment_comp_stamp now]

theorem scrub_candidate_comp_stamp (now : Nat) :
    scrub_candidate ∘ stamp_candidate now = scrub_candidate :=
  funext fun c => scrub_candidate_stamp now c

theorem scrub_generation_stamp (now : Nat) (g : Generation) :
    scrub_generation (stamp_generation now g) = scrub_generation g := by
  have e1 : scrub_generation (stamp_generation now g) =
      { g with candidates :=
          (g.candidates.map (stamp_candidate now)).map scrub_candidate } := rfl
  have e2 : scrub_generation g =
      { g with candidates := g.candidates.map scrub_candidate } := rfl
  rw [e1, e2, List.map_map, scrub_candidate_comp_stamp now]

theorem scrub_generation_comp_stamp (now : Nat) :
    scrub_generation ∘ stamp_generation now = scrub_generation :=
  funext fun g => scrub_generation_stamp now g

theorem scrub_run_stamp (now : Nat) (run : GADRun) :
    scrub_run (stamp_run now run) = scrub_run run := by
  have e1 : scrub_run (stamp_run now run) =
      { run with generations :=
          (run.generations.map (stamp_generation now)).map scrub_generation } := rfl
  have e2 : scrub_run run =
      { run with generations := run.generations.map scrub_generation } := rfl
  rw [e1, e2, List.map_map, scrub_generation_comp_stamp now]

set_option maxRecDepth 200000 in
unseal pyRandom pyRandInt Rat.add Rat.mul Rat.inv Rat.sub Rat.ofScientific in
/-- C10 counterexample: two calls of `create_sample_run` made at different
clock readings return different `GADRun` values — the first reviewer
comment of the run records the wall-clock reading of the call, which
differs between the two calls.  This refutes the claim that two separate
calls return equal values. -/
theorem c10_counterexample :
    create_sample_run 0 (pySeed 0) ≠ create_sample_run 1 (pySeed 0) := by
  intro h
  have h2 := congrArg first_comment_timestamp h
  rw [show first_comment_timestamp (create_sample_run 0 (pySeed 0)) = some 0 by decide,
      show first_comment_timestamp (create_sample_run 1 (pySeed 0)) = some 1 by decide] at h2
  exact absurd h2 (by decide)

/-- C10 amended: because `create_sample_run` begins with `random.seed(42)`,
its result does not depend on the ambient random state at all, and the
wall clock enters only through the reviewer-comment timestamps: any two
calls — at any clock readings and any ambient random states — return runs
that agree exactly after erasing the comment timestamps, so every
generation, candidate, metric, score, survivor list and breeding pair is
identical across calls. -/
theorem c10_run_reproducible_up_to_timestamps (now1 now2 : Nat)
    (r1 r2 : PyRng) :
    scrub_run (create_sample_run now1 r1) =
      scrub_run (create_sample_run now2 r2) := by
  rw [create_sample_run_stamp now1 r1, create_sample_run_stamp now2 r2,
    scrub_run_stamp, scrub_run_stamp]
  rw [show create_sample_run 0 r1 = create_sample_run 0 r2 from rfl]

end GadDemo
